import Mathlib

/-!
Shallow embedding of the per-entity batch coordination engine of
`src/adapters/redis.ts` (class `MessageBatchManager`).

All redis keys are namespaced per entity (`lead:<id>:...`), so the store
state relevant to one entity is modelled as one record, `EntityState`.
TTLs are kept explicitly (in seconds, as redis receives them) so that
expiry behaviour is observable.  JSON serialization round-trips exactly
for the plain string-field records involved, so the queue holds
`MessageData` values directly.  Timestamps are natural numbers
(milliseconds, as `Date.now()` returns).  A JavaScript exception crossing
a function boundary is modelled by the `Except String` result channel;
a function that catches internally returns `.ok`.
-/

/-- Configuration constants of `BATCH_CONFIG` (`redis.ts`, lines 5-11).
`MESSAGE_DELAY` and `MAX_WAIT_TIME` are in milliseconds;
`PROCESSING_TIMEOUT` and `RESPONSE_TTL` are in seconds. -/
def MESSAGE_DELAY : Nat := 5000

/-- Maximum number of messages per batch (`BATCH_CONFIG.MAX_BATCH_SIZE`). -/
def MAX_BATCH_SIZE : Nat := 10

/-- Maximum total wait in milliseconds (`BATCH_CONFIG.MAX_WAIT_TIME`). -/
def MAX_WAIT_TIME : Nat := 30000

/-- Lock timeout in seconds (`BATCH_CONFIG.PROCESSING_TIMEOUT`). -/
def PROCESSING_TIMEOUT : Nat := 60

/-- Response TTL in seconds (`BATCH_CONFIG.RESPONSE_TTL`). -/
def RESPONSE_TTL : Nat := 300

/-- One inbound event (`interface MessageData`). -/
structure MessageData where
  message : String
  message_id : String
  message_type : String
  date : String
deriving Repr, DecidableEq

/-- The record handed to the processing callback (`interface BatchResult`). -/
structure BatchResult where
  messages : List MessageData
  lead_id : Nat
  combinedMessage : String
  messageCount : Nat
deriving Repr, DecidableEq

/-- The value stored under `lead:<id>:last_response`: either the
`responseData` object (lines 148-153) or the `errorData` object
(lines 167-171).  Fields absent on one branch are `Option`s.
`processed_at` holds the drain's timestamp. -/
structure LastResponse where
  response : Option String
  error : Option String
  processed_messages : Option Nat
  processed_at : Nat
  status : String
deriving Repr, DecidableEq

/-- The per-entity slice of the redis store plus the in-process timer map
entry for that entity.
* `messages` — the list at `lead:<id>:messages`; `lPush` prepends, so the
  HEAD is the most recently appended message.
* `timer` — `lead:<id>:timer` (value is the constant string `active`);
  the field records its remaining TTL in seconds when present.
* `batch_start` — `lead:<id>:batch_start`: the stored start timestamp
  (milliseconds) and its remaining TTL in seconds.
* `processing` — `lead:<id>:processing`: `some none` means the key exists
  with no expiry attached (as right after a bare `setNX`), `some (some t)`
  means it expires in `t` seconds.
* `last_response` — `lead:<id>:last_response` with its TTL in seconds.
* `timerHandle` — the `timers` map entry: the scheduled fire time of the
  in-process `setTimeout`, if one is armed. -/
structure EntityState where
  messages : List MessageData
  timer : Option Nat
  batch_start : Option (Nat × Nat)
  processing : Option (Option Nat)
  last_response : Option (LastResponse × Nat)
  timerHandle : Option Nat
deriving Repr, DecidableEq

/-- The state with no keys and no timer: redis before any message. -/
def EntityState.initial : EntityState :=
  { messages := [], timer := none, batch_start := none, processing := none,
    last_response := none, timerHandle := none }

/-- Passage of `dt` seconds: every key carrying a TTL of at most `dt`
expires (redis deletes it); a key with no TTL attached never expires. -/
def tick (dt : Nat) (s : EntityState) : EntityState :=
  { s with
    timer := match s.timer with
      | none => none
      | some t => if t ≤ dt then none else some (t - dt)
    batch_start := match s.batch_start with
      | none => none
      | some (v, t) => if t ≤ dt then none else some (v, t - dt)
    processing := match s.processing with
      | none => none
      | some none => some none
      | some (some t) => if t ≤ dt then none else some (some (t - dt))
    last_response := match s.last_response with
      | none => none
      | some (v, t) => if t ≤ dt then none else some (v, t - dt) }

/-- The processing callback contract (`interface ProcessingCallback`):
given a batch, produce a result string or throw. -/
def ProcessingCallback : Type := BatchResult → Except String String

/-- `hasActiveFlow` (lines 259-265): queue non-empty, or timer marker
present, or processing lock held. -/
def hasActiveFlow (s : EntityState) : Bool :=
  s.messages.length > 0 || s.timer.isSome || s.processing.isSome

/-- `shouldProcessImmediately` (lines 233-254): queue length reached
`MAX_BATCH_SIZE`, or `batch_start` exists and `Date.now() - startTime`
reached `MAX_WAIT_TIME` (JavaScript number subtraction, hence `Int`). -/
def shouldProcessImmediately (now : Nat) (s : EntityState) : Bool :=
  if s.messages.length ≥ MAX_BATCH_SIZE then true
  else
    match s.batch_start with
    | some (startTime, _) =>
      if (MAX_WAIT_TIME : Int) ≤ (now : Int) - (startTime : Int) then true else false
    | none => false

/-- The per-message line of the combined payload (lines 131-133):
`Mensaje <index+1> (<date>): <message>`, for 0-based `index`. -/
def tagMessage (index : Nat) (msg : MessageData) : String :=
  "Mensaje " ++ toString (index + 1) ++ " (" ++ msg.date ++ "): " ++ msg.message

/-- The combined message: the tagged lines joined by blank lines, in the
order `lRange` returned them (head of the stored list first). -/
def combineMessages (msgs : List MessageData) : String :=
  String.intercalate "\n\n" (msgs.enum.map fun p => tagMessage p.1 p.2)

/-- The `batchResult` record built at lines 137-142 from the `lRange`
read of the queue. -/
def mkBatchResult (lead_id : Nat) (msgs : List MessageData) : BatchResult :=
  { messages := msgs, lead_id := lead_id, combinedMessage := combineMessages msgs,
    messageCount := msgs.length }

/-- The `setNX(processingKey, '1')` call (line 108): fails (returns
`none`) when the key exists; otherwise creates the key with NO expiry. -/
def acquireLock (s : EntityState) : Option EntityState :=
  if s.processing.isSome then none
  else some { s with processing := some none }

/-- The separate `expire(processingKey, PROCESSING_TIMEOUT)` call
(line 115), attaching the TTL to the existing lock key. -/
def setLockExpiry (s : EntityState) : EntityState :=
  { s with processing := some (some PROCESSING_TIMEOUT) }

/-- The `setEx` of `responseData` (lines 148-159). -/
def writeLastResponse (now : Nat) (aiResponse : String) (count : Nat)
    (s : EntityState) : EntityState :=
  { s with last_response := some (⟨some aiResponse, none, some count, now, "completed"⟩, RESPONSE_TTL) }

/-- The `setEx` of `errorData` in the catch block (lines 167-177). -/
def writeErrorResponse (now : Nat) (emsg : String) (s : EntityState) : EntityState :=
  { s with last_response := some (⟨none, some emsg, none, now, "error"⟩, RESPONSE_TTL) }

/-- `cleanupFlow` (lines 270-284): delete the messages list, the timer
marker, the batch-start marker and the processing lock, and clear the
in-process timer handle.  `last_response` is untouched. -/
def cleanupFlow (s : EntityState) : EntityState :=
  { s with messages := [], timer := none, batch_start := none, processing := none, timerHandle := none }

/-- How one run of `processAndCloseFlow` ended. -/
inductive DrainExit where
  | lockBusy
  | emptySkip
  | completed (response : String)
  | callbackError (message : String)
deriving Repr, DecidableEq

/-- `processAndCloseFlow` (lines 103-184).  The body is one
`try/catch/finally`:
* `setNX` false — the early `return` at line 111 still passes through the
  `finally` at line 179, so `cleanupFlow` runs on this path too;
* `expire` then `lRange` — an empty read also returns early through the
  `finally`;
* otherwise the callback runs; on success `responseData` is stored, on
  throw the `catch` stores `errorData` and swallows the exception;
  the `finally` then runs `cleanupFlow`.
No branch rethrows, so the result is always `.ok`; the second component
is the batch handed to the callback (`none` when it was not invoked). -/
def processAndCloseFlow (lead_id now : Nat) (cb : ProcessingCallback)
    (s : EntityState) : Except String (EntityState × Option BatchResult × DrainExit) :=
  match acquireLock s with
  | none => Except.ok (cleanupFlow s, none, DrainExit.lockBusy)
  | some s1 =>
    let s2 := setLockExpiry s1
    if s2.messages.isEmpty then
      Except.ok (cleanupFlow s2, none, DrainExit.emptySkip)
    else
      let batch := mkBatchResult lead_id s2.messages
      match cb batch with
      | Except.ok aiResponse =>
        Except.ok (cleanupFlow (writeLastResponse now aiResponse s2.messages.length s2),
          some batch, DrainExit.completed aiResponse)
      | Except.error e =>
        Except.ok (cleanupFlow (writeErrorResponse now e s2),
          some batch, DrainExit.callbackError e)

/-- `scheduleMessageProcessing` (lines 189-228): cancel any existing
in-process timer; create `batch_start` with value `Date.now()` and TTL
`MAX_WAIT_TIME / 1000` seconds only if absent; arm a new timer firing at
`now + MESSAGE_DELAY`; store the timer marker with TTL
`(MESSAGE_DELAY + 5000) / 1000` seconds. -/
def scheduleMessageProcessing (now : Nat) (s : EntityState) : EntityState :=
  let s1 := { s with timerHandle := none }
  let s2 :=
    match s1.batch_start with
    | some _ => s1
    | none => { s1 with batch_start := some (now, MAX_WAIT_TIME / 1000) }
  { s2 with timerHandle := some (now + MESSAGE_DELAY), timer := some ((MESSAGE_DELAY + 5000) / 1000) }

/-- The record returned by `addMessage` (lines 60-64). -/
structure AddResult where
  shouldProcessImmediately : Bool
  messagesInBatch : Nat
  isNewFlow : Bool
deriving Repr, DecidableEq

/-- `addMessage` (lines 34-65): compute `isNewFlow` before appending;
`lPush` the message (PREPEND: new head); evaluate
`shouldProcessImmediately`; either await `processAndCloseFlow`
(a throw there would propagate to this caller — hence the `Except`
plumbing) or schedule; finally re-read the queue length (`lLen`) for
`messagesInBatch`.  The third component reports the batch handed to the
callback, if a drain invoked it. -/
def addMessage (lead_id now : Nat) (msg : MessageData) (cb : ProcessingCallback)
    (s : EntityState) :
    Except String (EntityState × AddResult × Option BatchResult) :=
  let isNewFlow := !(hasActiveFlow s)
  let s1 := { s with messages := msg :: s.messages }
  let immediate := shouldProcessImmediately now s1
  if immediate then
    match processAndCloseFlow lead_id now cb s1 with
    | Except.error e => Except.error e
    | Except.ok (s2, invoked, _) =>
      Except.ok (s2, ⟨immediate, s2.messages.length, isNewFlow⟩, invoked)
  else
    let s2 := scheduleMessageProcessing now s1
    Except.ok (s2, ⟨immediate, s2.messages.length, isNewFlow⟩, none)

/-- The `setTimeout` callback armed at lines 213-217: on fire, remove the
timer map entry and run `processAndCloseFlow`.  An exception there would
be an unhandled rejection, reaching no caller; none arises, since
`processAndCloseFlow` never rethrows. -/
def timerFire (lead_id now : Nat) (cb : ProcessingCallback) (s : EntityState) :
    Except String (EntityState × Option BatchResult × DrainExit) :=
  processAndCloseFlow lead_id now cb { s with timerHandle := none }

/-- Run a sequence of `(now, message)` arrivals through `addMessage`,
threading the state. -/
def runArrivals (lead_id : Nat) (cb : ProcessingCallback) :
    List (Nat × MessageData) → EntityState → Except String EntityState
  | [], s => Except.ok s
  | (now, m) :: rest, s =>
    match addMessage lead_id now m cb s with
    | Except.error e => Except.error e
    | Except.ok (s1, _, _) => runArrivals lead_id cb rest s1

/-! ### Concrete fixtures used by the closed theorems and witnesses -/

/-- A concrete message indexed by `i`. -/
def exMessage (i : Nat) : MessageData :=
  ⟨"m" ++ toString i, "id" ++ toString i, "text", "d" ++ toString i⟩

/-- A callback that always succeeds with the string `resp`. -/
def cbOk : ProcessingCallback := fun _ => Except.ok "resp"

/-- A callback that always throws with message `boom`. -/
def cbFail : ProcessingCallback := fun _ => Except.error "boom"

/-- An entity whose lock key is held by a concurrent drain, with one
queued message and live timer / window markers. -/
def lockedState : EntityState :=
  { messages := [exMessage 1], timer := some 10, batch_start := some (0, 30), processing := some (some 60), last_response := none, timerHandle := some 5000 }

/-- The state after two scheduled arrivals at times 0 and 1000: the
queue's head is the LATER message (effect of `lPush`). -/
def twoQueued : EntityState :=
  { messages := [exMessage 2, exMessage 1], timer := some 10, batch_start := some (0, 30), processing := none, last_response := none, timerHandle := some 6000 }

/-- The state after nine scheduled arrivals at time 100. -/
def nineQueued : EntityState :=
  { messages := [exMessage 9, exMessage 8, exMessage 7, exMessage 6, exMessage 5, exMessage 4, exMessage 3, exMessage 2, exMessage 1], timer := some 10, batch_start := some (100, 30), processing := none, last_response := none, timerHandle := some 5100 }

/-- The state after one scheduled arrival at time 0. -/
def oneQueued : EntityState :=
  { messages := [exMessage 1], timer := some 10, batch_start := some (0, 30), processing := none, last_response := none, timerHandle := some 5000 }

/-- The state left by a successful drain of `oneQueued` at time 100. -/
def drainedOne : EntityState :=
  { messages := [], timer := none, batch_start := none, processing := none, last_response := some (⟨some "resp", none, some 1, 100, "completed"⟩, RESPONSE_TTL), timerHandle := none }

/-! ### Shared helper lemmas -/

/-- When the lock is free and the queue non-empty, `processAndCloseFlow`
invokes the callback on the batch built from the queue and, on either
callback outcome, stores the corresponding last-response record and runs
`cleanupFlow`; no exception escapes. -/
lemma processAndCloseFlow_run (lead_id now : Nat) (cb : ProcessingCallback) (s : EntityState)
    (hlock : s.processing = none) (hne : s.messages ≠ []) :
    processAndCloseFlow lead_id now cb s =
      match cb (mkBatchResult lead_id s.messages) with
      | Except.ok r =>
        Except.ok (cleanupFlow (writeLastResponse now r s.messages.length s),
          some (mkBatchResult lead_id s.messages), DrainExit.completed r)
      | Except.error e =>
        Except.ok (cleanupFlow (writeErrorResponse now e s),
          some (mkBatchResult lead_id s.messages), DrainExit.callbackError e) := by
  unfold processAndCloseFlow acquireLock setLockExpiry
  simp [hlock, List.isEmpty_iff, hne]
  cases cb (mkBatchResult lead_id s.messages) with
  | ok r => simp [cleanupFlow, writeLastResponse]
  | error e => simp [cleanupFlow, writeErrorResponse]

/-- `processAndCloseFlow` never rethrows: every branch of its
`try/catch/finally` yields a normal result. -/
lemma processAndCloseFlow_isOk (lead_id now : Nat) (cb : ProcessingCallback) (s : EntityState) :
    ∃ r, processAndCloseFlow lead_id now cb s = Except.ok r := by
  unfold processAndCloseFlow
  cases acquireLock s with
  | none => exact ⟨_, rfl⟩
  | some s1 =>
    simp only
    split
    · exact ⟨_, rfl⟩
    · cases cb (mkBatchResult lead_id (setLockExpiry s1).messages) with
      | ok r => exact ⟨_, rfl⟩
      | error e => exact ⟨_, rfl⟩

/-! ### Claim theorems -/

/-- C1: the claim says a drain that loses the `setIfAbsent` race is a
no-op skip leaving all store state unchanged.  Evaluating the code at the
failing input — a drain invoked while the lock key is already held, with
a queued message and live timer / window markers — shows the opposite:
the early return passes through the `finally` block, so `cleanupFlow`
runs and deletes the queue, the timer marker, the window marker AND the
lock key held by the concurrent drain.  Only the no-callback and
no-error parts of the claim hold. -/
theorem c1_lockContention_cleanup_runs :
    processAndCloseFlow 42 1000 cbOk lockedState =
      Except.ok ({ messages := [], timer := none, batch_start := none, processing := none, last_response := none, timerHandle := none }, none, DrainExit.lockBusy) := by
  rfl

/-- C2: the claim says the combined payload lists the events oldest
first.  Appending `exMessage 1` at time 0 and `exMessage 2` at time 1000
and then draining shows the callback receives the events NEWEST first
(`lPush` prepends and `lRange 0 -1` reads head first): position 1 is
tagged to the later message. -/
theorem c2_combined_payload_newest_first :
    runArrivals 42 cbOk [(0, exMessage 1), (1000, exMessage 2)] EntityState.initial = Except.ok twoQueued ∧
    (timerFire 42 6000 cbOk twoQueued).toOption.map (fun r => r.2.1) =
      some (some { messages := [exMessage 2, exMessage 1], lead_id := 42, combinedMessage := "Mensaje 1 (d2): m2\n\nMensaje 2 (d1): m1", messageCount := 2 }) :=
  ⟨rfl, by decide⟩

/-- C3 counterexample: after nine arrivals, the tenth (`MAX_BATCH_SIZE`
= 10) triggers the synchronous drain, but the returned `messagesInBatch`
is 0 — the queue length re-read AFTER the drain deleted the queue — not
the batch size 10 the claim states (the batch handed to the callback did
carry 10 events, and the queue is empty afterwards). -/
theorem c3_queueSize_zero_counterexample :
    runArrivals 42 cbOk [(100, exMessage 1), (100, exMessage 2), (100, exMessage 3), (100, exMessage 4), (100, exMessage 5), (100, exMessage 6), (100, exMessage 7), (100, exMessage 8), (100, exMessage 9)] EntityState.initial = Except.ok nineQueued ∧
    (addMessage 42 100 (exMessage 10) cbOk nineQueued).toOption.map
      (fun r => (r.2.1, r.1.messages, r.2.2.map (fun b => b.messageCount))) =
      some (⟨true, 0, false⟩, [], some 10) :=
  ⟨rfl, by decide⟩

/-- C3 (amended): when an append brings the queue to `MAX_BATCH_SIZE`
and the lock is free, `addMessage` drains synchronously before
returning, reports `immediate = true`, hands the callback the batch of
all queued events, and the queue key is absent afterwards — but the
reported `queueSize` is 0, the queue length re-read after the drain. -/
theorem c3_immediate_drain_amended (lead_id now : Nat) (msg : MessageData)
    (cb : ProcessingCallback) (s : EntityState)
    (hsize : MAX_BATCH_SIZE ≤ (msg :: s.messages).length)
    (hlock : s.processing = none) :
    ∃ s2 : EntityState,
      addMessage lead_id now msg cb s =
        Except.ok (s2, ⟨true, 0, !(hasActiveFlow s)⟩,
          some (mkBatchResult lead_id (msg :: s.messages))) ∧
      s2.messages = [] := by
  have himm : shouldProcessImmediately now { s with messages := msg :: s.messages } = true := by
    simp only [shouldProcessImmediately]
    rw [if_pos (by simpa using hsize)]
  have hrun := processAndCloseFlow_run lead_id now cb { s with messages := msg :: s.messages }
    (by simpa using hlock) (by simp)
  unfold addMessage
  simp only [himm, if_true, hrun]
  cases hcb : cb (mkBatchResult lead_id (msg :: s.messages)) with
  | ok r =>
    simp [hcb, cleanupFlow, writeLastResponse]
  | error e =>
    simp [hcb, cleanupFlow, writeErrorResponse]

/-- C3 witness: the amended claim at the concrete tenth arrival. -/
theorem c3_immediate_drain_amended_witness :
    ∃ s2 : EntityState,
      addMessage 42 100 (exMessage 10) cbOk nineQueued =
        Except.ok (s2, ⟨true, 0, !(hasActiveFlow nineQueued)⟩,
          some (mkBatchResult 42 (exMessage 10 :: nineQueued.messages))) ∧
      s2.messages = [] :=
  c3_immediate_drain_amended 42 100 (exMessage 10) cbOk nineQueued (by decide) rfl

/-- C4 counterexample: the claim says a callback failure on the
immediate path propagates to the caller of `addMessage`.  At the
concrete tenth arrival with an always-throwing callback, the immediate
path runs, the failure is recorded (`status = error`), and `addMessage`
still returns a NORMAL result (`toOption` is `some`), so nothing
propagated. -/
theorem c4_immediate_path_failure_not_propagated :
    (addMessage 42 100 (exMessage 10) cbFail nineQueued).toOption.map
      (fun r => (r.2.1.shouldProcessImmediately, r.1.last_response.map (fun p => p.1.status))) =
      some (true, some "error") := by
  decide

/-- C4 (amended): a Processing Callback failure never propagates to the
caller of `addMessage` — on the immediate path exactly as on the
timer path, the drain's catch block swallows it, so both entry points
always return normally. -/
theorem c4_callback_failure_never_propagates (lead_id now : Nat) (msg : MessageData)
    (cb : ProcessingCallback) (s : EntityState) :
    (∃ r, addMessage lead_id now msg cb s = Except.ok r) ∧
    (∃ r, timerFire lead_id now cb s = Except.ok r) := by
  constructor
  · unfold addMessage
    simp only
    split
    · obtain ⟨⟨s2, invoked, ex⟩, h⟩ := processAndCloseFlow_isOk lead_id now cb
        { s with messages := msg :: s.messages }
      rw [h]
      exact ⟨_, rfl⟩
    · exact ⟨_, rfl⟩
  · exact processAndCloseFlow_isOk lead_id now cb { s with timerHandle := none }

/-- C5 counterexample: the claim says every completed drain — including
the empty-queue skip — leaves the LastResult key populated.  Draining
the idle state (no queued events, no prior last response) completes as
an empty skip and leaves `last_response` ABSENT: the skip returns before
the `setEx` of a response record. -/
theorem c5_empty_skip_no_lastResult :
    processAndCloseFlow 42 100 cbOk EntityState.initial =
      Except.ok (EntityState.initial, none, DrainExit.emptySkip) := by
  rfl

/-- C5 (amended): after any completed drain that found the lock free,
the queue key, the timer marker, the window marker and the lock key are
all absent and the in-process timer handle is removed; when the queue
was non-empty (callback success or failure) `last_response` is populated
with TTL `RESPONSE_TTL`, while the empty-queue skip leaves
`last_response` exactly as it was (it is not written). -/
theorem c5_cleanup_invariant_amended (lead_id now : Nat) (cb : ProcessingCallback)
    (s s' : EntityState) (invoked : Option BatchResult) (ex : DrainExit)
    (hlock : s.processing = none)
    (h : processAndCloseFlow lead_id now cb s = Except.ok (s', invoked, ex)) :
    s'.messages = [] ∧ s'.timer = none ∧ s'.batch_start = none ∧ s'.processing = none ∧
      s'.timerHandle = none ∧
      (s.messages ≠ [] → ∃ v, s'.last_response = some (v, RESPONSE_TTL)) ∧
      (s.messages = [] → s'.last_response = s.last_response) := by
  by_cases hne : s.messages = []
  · unfold processAndCloseFlow acquireLock at h
    simp [hlock, hne, setLockExpiry, List.isEmpty_iff] at h
    obtain ⟨h1, -⟩ := h
    subst h1
    simp [cleanupFlow, hne]
  · rw [processAndCloseFlow_run lead_id now cb s hlock hne] at h
    cases hcb : cb (mkBatchResult lead_id s.messages) with
    | ok r =>
      rw [hcb] at h
      simp only [Except.ok.injEq, Prod.mk.injEq] at h
      obtain ⟨h1, -⟩ := h
      subst h1
      simp [cleanupFlow, writeLastResponse, hne]
    | error e =>
      rw [hcb] at h
      simp only [Except.ok.injEq, Prod.mk.injEq] at h
      obtain ⟨h1, -⟩ := h
      subst h1
      simp [cleanupFlow, writeErrorResponse, hne]

/-- C5 witness: the amended cleanup invariant at the concrete successful
drain of a one-message queue. -/
theorem c5_cleanup_invariant_amended_witness :
    drainedOne.messages = [] ∧ drainedOne.timer = none ∧ drainedOne.batch_start = none ∧
      drainedOne.processing = none ∧ drainedOne.timerHandle = none ∧
      (oneQueued.messages ≠ [] → ∃ v, drainedOne.last_response = some (v, RESPONSE_TTL)) ∧
      (oneQueued.messages = [] → drainedOne.last_response = oneQueued.last_response) :=
  c5_cleanup_invariant_amended 42 100 cbOk oneQueued drainedOne
    (some (mkBatchResult 42 [exMessage 1])) (DrainExit.completed "resp") rfl rfl

/-- C6: the immediate-drain decision returns true exactly when the queue
length has reached `MAX_BATCH_SIZE`, or a window marker exists whose
recorded start is at least `MAX_WAIT_TIME` milliseconds before `now`;
and whenever it evaluates to false after the append, `addMessage` takes
the scheduled (debounce) path. -/
theorem c6_immediate_iff_threshold (lead_id now : Nat) (msg : MessageData)
    (cb : ProcessingCallback) (s : EntityState) :
    (shouldProcessImmediately now s = true ↔
      (MAX_BATCH_SIZE ≤ s.messages.length ∨
        ∃ st ttl, s.batch_start = some (st, ttl) ∧
          (MAX_WAIT_TIME : Int) ≤ (now : Int) - (st : Int))) ∧
    (shouldProcessImmediately now { s with messages := msg :: s.messages } = false →
      addMessage lead_id now msg cb s =
        Except.ok (scheduleMessageProcessing now { s with messages := msg :: s.messages },
          ⟨false, (scheduleMessageProcessing now { s with messages := msg :: s.messages }).messages.length,
            !(hasActiveFlow s)⟩, none)) := by
  constructor
  · unfold shouldProcessImmediately
    split
    · next hlen => simp [hlen]
    · next hlen =>
      cases hbs : s.batch_start with
      | none => simp [hbs, hlen]
      | some p =>
        obtain ⟨st, ttl⟩ := p
        by_cases helapsed : (MAX_WAIT_TIME : Int) ≤ (now : Int) - (st : Int)
        · simp [hbs, helapsed, hlen]
        · simp [hbs, helapsed, hlen]
  · intro him
    unfold addMessage
    simp only [him, Bool.false_eq_true, if_false]

/-- C6 witness: the threshold characterisation at a concrete below-size,
below-window arrival on the idle state. -/
theorem c6_immediate_iff_threshold_witness :
    (shouldProcessImmediately 100 EntityState.initial = true ↔
      (MAX_BATCH_SIZE ≤ EntityState.initial.messages.length ∨
        ∃ st ttl, EntityState.initial.batch_start = some (st, ttl) ∧
          (MAX_WAIT_TIME : Int) ≤ ((100 : Nat) : Int) - (st : Int))) ∧
    (shouldProcessImmediately 100 { EntityState.initial with messages := exMessage 1 :: EntityState.initial.messages } = false →
      addMessage 42 100 (exMessage 1) cbOk EntityState.initial =
        Except.ok (scheduleMessageProcessing 100 { EntityState.initial with messages := exMessage 1 :: EntityState.initial.messages },
          ⟨false, (scheduleMessageProcessing 100 { EntityState.initial with messages := exMessage 1 :: EntityState.initial.messages }).messages.length,
            !(hasActiveFlow EntityState.initial)⟩, none)) :=
  c6_immediate_iff_threshold 42 100 (exMessage 1) cbOk EntityState.initial

/-- C7: a callback that throws during a timer-driven drain yields a
normal (never rethrown) result in which `last_response` holds the error
message, the drain timestamp and status `error` with TTL `RESPONSE_TTL`,
and the queue, both markers, the lock and the timer handle are cleared. -/
theorem c7_callback_error_recorded (lead_id now : Nat) (cb : ProcessingCallback)
    (s : EntityState) (emsg : String)
    (hlock : s.processing = none) (hne : s.messages ≠ [])
    (hcb : cb (mkBatchResult lead_id s.messages) = Except.error emsg) :
    timerFire lead_id now cb s =
      Except.ok ({ messages := [], timer := none, batch_start := none, processing := none, last_response := some (⟨none, some emsg, none, now, "error"⟩, RESPONSE_TTL), timerHandle := none },
        some (mkBatchResult lead_id s.messages), DrainExit.callbackError emsg) := by
  unfold timerFire
  rw [processAndCloseFlow_run lead_id now cb { s with timerHandle := none }
    (by simpa using hlock) (by simpa using hne)]
  simp only
  rw [hcb]
  simp [cleanupFlow, writeErrorResponse]

/-- C7 witness: the error path at the concrete one-message queue with
the always-throwing callback. -/
theorem c7_callback_error_recorded_witness :
    timerFire 42 100 cbFail oneQueued =
      Except.ok ({ messages := [], timer := none, batch_start := none, processing := none, last_response := some (⟨none, some "boom", none, 100, "error"⟩, RESPONSE_TTL), timerHandle := none },
        some (mkBatchResult 42 [exMessage 1]), DrainExit.callbackError "boom") :=
  c7_callback_error_recorded 42 100 cbFail oneQueued "boom" rfl (by decide) rfl

/-- C8: on the scheduled (non-immediate) path, the window marker
`batch_start` is created with the arrival time and TTL
`MAX_WAIT_TIME / 1000` seconds (30000 ms) only when absent, and is left
entirely unchanged — value and remaining TTL — when already present;
what is re-armed on every such arrival is the in-process debounce timer
(new fire time `now + MESSAGE_DELAY`) and the advisory timer marker. -/
theorem c8_window_marker_frame (lead_id now : Nat) (msg : MessageData)
    (cb : ProcessingCallback) (s s' : EntityState) (res : AddResult)
    (invoked : Option BatchResult)
    (h : addMessage lead_id now msg cb s = Except.ok (s', res, invoked))
    (him : res.shouldProcessImmediately = false) :
    (s.batch_start = none → s'.batch_start = some (now, MAX_WAIT_TIME / 1000)) ∧
    (s.batch_start.isSome = true → s'.batch_start = s.batch_start) ∧
    s'.timerHandle = some (now + MESSAGE_DELAY) ∧
    s'.timer = some ((MESSAGE_DELAY + 5000) / 1000) := by
  unfold addMessage at h
  by_cases himm : shouldProcessImmediately now { s with messages := msg :: s.messages } = true
  · exfalso
    simp only [himm, if_true] at h
    obtain ⟨⟨s2, inv, ex⟩, hok⟩ := processAndCloseFlow_isOk lead_id now cb
      { s with messages := msg :: s.messages }
    rw [hok] at h
    simp only [Except.ok.injEq, Prod.mk.injEq] at h
    obtain ⟨-, h2, -⟩ := h
    rw [← h2] at him
    simp at him
  · rw [Bool.not_eq_true] at himm
    simp only [himm, Bool.false_eq_true, if_false, Except.ok.injEq, Prod.mk.injEq] at h
    obtain ⟨h1, -, -⟩ := h
    subst h1
    unfold scheduleMessageProcessing
    cases hbs : s.batch_start with
    | none => simp [hbs]
    | some v => simp [hbs]

/-- C8 witness: a second arrival, 1000 ms after the first, leaves the
existing window marker (value and TTL) untouched while re-arming the
debounce timer. -/
theorem c8_window_marker_frame_witness :
    (oneQueued.batch_start = none → twoQueued.batch_start = some (1000, MAX_WAIT_TIME / 1000)) ∧
    (oneQueued.batch_start.isSome = true → twoQueued.batch_start = oneQueued.batch_start) ∧
    twoQueued.timerHandle = some (1000 + MESSAGE_DELAY) ∧
    twoQueued.timer = some ((MESSAGE_DELAY + 5000) / 1000) :=
  c8_window_marker_frame 42 1000 (exMessage 2) cbOk oneQueued twoQueued
    ⟨false, 2, false⟩ none rfl rfl

/-- C9: `addMessage` reports `isNewFlow = true` exactly when, in the
state observed before the append, the queue is empty, no timer marker
exists and the processing lock is not held. -/
theorem c9_isNewFlow_iff (lead_id now : Nat) (msg : MessageData)
    (cb : ProcessingCallback) (s s' : EntityState) (res : AddResult)
    (invoked : Option BatchResult)
    (h : addMessage lead_id now msg cb s = Except.ok (s', res, invoked)) :
    (res.isNewFlow = true ↔ (s.messages = [] ∧ s.timer = none ∧ s.processing = none)) := by
  have hres : res.isNewFlow = !(hasActiveFlow s) := by
    unfold addMessage at h
    by_cases himm : shouldProcessImmediately now { s with messages := msg :: s.messages } = true
    · simp only [himm, if_true] at h
      obtain ⟨⟨s2, inv, ex⟩, hok⟩ := processAndCloseFlow_isOk lead_id now cb
        { s with messages := msg :: s.messages }
      rw [hok] at h
      simp only [Except.ok.injEq, Prod.mk.injEq] at h
      obtain ⟨-, h2, -⟩ := h
      rw [← h2]
    · rw [Bool.not_eq_true] at himm
      simp only [himm, Bool.false_eq_true, if_false, Except.ok.injEq, Prod.mk.injEq] at h
      obtain ⟨-, h2, -⟩ := h
      rw [← h2]
  rw [hres]
  unfold hasActiveFlow
  cases s.messages with
  | nil =>
    cases htimer : s.timer with
    | none =>
      cases hproc : s.processing with
      | none => simp [htimer, hproc]
      | some p => simp [htimer, hproc]
    | some t => simp [htimer]
  | cons a l => simp

/-- C9 witness: the first arrival on the idle state is reported as a new
flow, and the idle state indeed has no queue, timer marker or lock. -/
theorem c9_isNewFlow_iff_witness :
    ((⟨false, 1, true⟩ : AddResult).isNewFlow = true ↔
      (EntityState.initial.messages = [] ∧ EntityState.initial.timer = none ∧
        EntityState.initial.processing = none)) :=
  c9_isNewFlow_iff 42 0 (exMessage 1) cbOk EntityState.initial oneQueued
    ⟨false, 1, true⟩ none rfl

/-- C10: when the lock is free, the drain's `setNX` creates the lock key
with NO expiry attached; the `PROCESSING_TIMEOUT` TTL is attached only
by the separate `expire` call, so in the intermediate state between the
two calls any amount of elapsed time leaves the lock key present — a
crash there leaves a lock that TTL expiry never releases. -/
theorem c10_lock_set_then_expire (s : EntityState) (dt : Nat)
    (h : s.processing = none) :
    acquireLock s = some { s with processing := some none } ∧
    (tick dt { s with processing := some none }).processing = some none ∧
    (setLockExpiry { s with processing := some none }).processing =
      some (some PROCESSING_TIMEOUT) := by
  refine ⟨?_, ?_, rfl⟩
  · unfold acquireLock
    simp [h]
  · simp [tick]

/-- C10 witness: the unexpiring intermediate lock at the concrete
one-message state, after a million seconds. -/
theorem c10_lock_set_then_expire_witness :
    acquireLock oneQueued = some { oneQueued with processing := some none } ∧
    (tick 1000000 { oneQueued with processing := some none }).processing = some none ∧
    (setLockExpiry { oneQueued with processing := some none }).processing =
      some (some PROCESSING_TIMEOUT) :=
  c10_lock_set_then_expire oneQueued 1000000 rfl
